import Mathlib

/-!
Verification of the `lenv` project-scoped Linux environment manager
(`src/lenv/core.py`, `src/lenv/cli.py`) against its specification.

The Python code is shallowly embedded: every external effect (subprocess
invocation, HTTP download, file deletion, printed message) becomes a
constructor of an effect type, and each method of the `LENV` class becomes a
pure Lean function from its inputs and an explicit world state to the list of
effects it performs together with its result.  Machine-level details that the
claims depend on are embedded exactly: the instance name uses a genuine MD5
implementation (the source truncates `hashlib.md5(...).hexdigest()` to eight
hex characters), and string manipulation mirrors Python string semantics
(`str.replace` removes every occurrence of its pattern, not just the first).
-/

namespace Lenv

/-! ### Bits and bytes -/

/-- 2^32, the modulus of all 32-bit arithmetic in MD5. -/
def M32 : Nat := 4294967296

/-- 32-bit left rotation of `x` (assumed `< 2^32`) by `s` places. -/
def rotl32 (x s : Nat) : Nat :=
  ((x <<< s) % M32) ||| (x >>> (32 - s))

/-- Bitwise complement on 32 bits. -/
def not32 (x : Nat) : Nat := x ^^^ 4294967295

/-- The four little-endian bytes of a 32-bit word. -/
def leBytes4 (x : Nat) : List Nat :=
  [x % 256, x / 256 % 256, x / 65536 % 256, x / 16777216 % 256]

/-- The eight little-endian bytes of a 64-bit word. -/
def leBytes8 (x : Nat) : List Nat :=
  leBytes4 (x % M32) ++ leBytes4 (x / M32)

/-- Group a byte list into little-endian 32-bit words (dropping a trailing
incomplete group, which never occurs on 64-byte blocks). -/
def leWords : List Nat → List Nat
  | b0 :: b1 :: b2 :: b3 :: rest =>
      (b0 + 256 * b1 + 65536 * b2 + 16777216 * b3) :: leWords rest
  | _ => []

/-! ### MD5 (RFC 1321), as used by `hashlib.md5` in `LENV.__init__` -/

/-- The 64 MD5 sine-derived constants. -/
def md5K : List Nat :=
  [0xd76aa478, 0xe8c7b756, 0x242070db, 0xc1bdceee,
   0xf57c0faf, 0x4787c62a, 0xa8304613, 0xfd469501,
   0x698098d8, 0x8b44f7af, 0xffff5bb1, 0x895cd7be,
   0x6b901122, 0xfd987193, 0xa679438e, 0x49b40821,
   0xf61e2562, 0xc040b340, 0x265e5a51, 0xe9b6c7aa,
   0xd62f105d, 0x02441453, 0xd8a1e681, 0xe7d3fbc8,
   0x21e1cde6, 0xc33707d6, 0xf4d50d87, 0x455a14ed,
   0xa9e3e905, 0xfcefa3f8, 0x676f02d9, 0x8d2a4c8a,
   0xfffa3942, 0x8771f681, 0x6d9d6122, 0xfde5380c,
   0xa4beea44, 0x4bdecfa9, 0xf6bb4b60, 0xbebfbc70,
   0x289b7ec6, 0xeaa127fa, 0xd4ef3085, 0x04881d05,
   0xd9d4d039, 0xe6db99e5, 0x1fa27cf8, 0xc4ac5665,
   0xf4292244, 0x432aff97, 0xab9423a7, 0xfc93a039,
   0x655b59c3, 0x8f0ccc92, 0xffeff47d, 0x85845dd1,
   0x6fa87e4f, 0xfe2ce6e0, 0xa3014314, 0x4e0811a1,
   0xf7537e82, 0xbd3af235, 0x2ad7d2bb, 0xeb86d391]

/-- The 64 MD5 per-round left-rotation amounts. -/
def md5S : List Nat :=
  [7, 12, 17, 22, 7, 12, 17, 22, 7, 12, 17, 22, 7, 12, 17, 22,
   5, 9, 14, 20, 5, 9, 14, 20, 5, 9, 14, 20, 5, 9, 14, 20,
   4, 11, 16, 23, 4, 11, 16, 23, 4, 11, 16, 23, 4, 11, 16, 23,
   6, 10, 15, 21, 6, 10, 15, 21, 6, 10, 15, 21, 6, 10, 15, 21]

/-- One MD5 round: state `(A, B, C, D)`, message words `M`, round index `i`. -/
def md5round (M : List Nat) (st : Nat × Nat × Nat × Nat) (i : Nat) :
    Nat × Nat × Nat × Nat :=
  let A := st.1
  let B := st.2.1
  let C := st.2.2.1
  let D := st.2.2.2
  let fg : Nat × Nat :=
    if i < 16 then ((B &&& C) ||| (not32 B &&& D), i)
    else if i < 32 then ((D &&& B) ||| (not32 D &&& C), (5 * i + 1) % 16)
    else if i < 48 then (B ^^^ C ^^^ D, (3 * i + 5) % 16)
    else (C ^^^ (B ||| not32 D), (7 * i) % 16)
  let tmp := (fg.1 + A + md5K.getD i 0 + M.getD fg.2 0) % M32
  (D, (B + rotl32 tmp (md5S.getD i 0)) % M32, B, C)

/-- Process one 64-byte block, updating the chaining state. -/
def md5block (h : Nat × Nat × Nat × Nat) (block : List Nat) :
    Nat × Nat × Nat × Nat :=
  let M := leWords block
  let r := (List.range 64).foldl (md5round M) h
  ((h.1 + r.1) % M32, (h.2.1 + r.2.1) % M32,
   (h.2.2.1 + r.2.2.1) % M32, (h.2.2.2 + r.2.2.2) % M32)

/-- Fold the block function over a padded message (a multiple of 64 bytes).
The fuel argument only bounds the number of 64-byte steps, keeping the
recursion structural; it is instantiated with the message length, which always
suffices. -/
def md5blocksFuel : Nat → Nat × Nat × Nat × Nat → List Nat →
    Nat × Nat × Nat × Nat
  | 0, h, _ => h
  | _ + 1, h, [] => h
  | fuel + 1, h, b :: rest =>
      md5blocksFuel fuel (md5block h ((b :: rest).take 64)) ((b :: rest).drop 64)

/-- Fold the block function over the whole padded message. -/
def md5blocks (h : Nat × Nat × Nat × Nat) (l : List Nat) :
    Nat × Nat × Nat × Nat :=
  md5blocksFuel l.length h l

/-- MD5 padding: `0x80`, zeros to 56 mod 64, then the bit length as a 64-bit
little-endian quantity. -/
def md5pad (msg : List Nat) : List Nat :=
  let r := msg.length % 64
  let zeros := if r < 56 then 55 - r else 119 - r
  msg ++ (128 :: List.replicate zeros 0) ++
    leBytes8 (8 * msg.length % (M32 * M32))

/-- The 16-byte MD5 digest of a byte list. -/
def md5 (msg : List Nat) : List Nat :=
  let fin := md5blocks (0x67452301, 0xefcdab89, 0x98badcfe, 0x10325476)
    (md5pad msg)
  leBytes4 fin.1 ++ leBytes4 fin.2.1 ++ leBytes4 fin.2.2.1 ++ leBytes4 fin.2.2.2

/-- Lower-case hex digit for a value `< 16`. -/
def hexChar (n : Nat) : Char :=
  if n < 10 then Char.ofNat (48 + n) else Char.ofNat (87 + n)

/-- Lower-case hex rendering of a byte list, two digits per byte, exactly as
`hexdigest` renders a digest. -/
def bytesToHex : List Nat → List Char
  | [] => []
  | b :: rest => hexChar (b / 16) :: hexChar (b % 16) :: bytesToHex rest

/-- `hashlib.md5(msg).hexdigest()` as a character list. -/
def md5hex (msg : List Nat) : List Char := bytesToHex (md5 msg)

/-! ### Strings and paths -/

/-- The UTF-8 encoding of one character, as Python `str.encode` produces. -/
def utf8Char (c : Char) : List Nat :=
  let n := c.toNat
  if n < 128 then [n]
  else if n < 2048 then [192 + n / 64, 128 + n % 64]
  else if n < 65536 then
    [224 + n / 4096, 128 + n / 64 % 64, 128 + n % 64]
  else
    [240 + n / 262144, 128 + n / 4096 % 64, 128 + n / 64 % 64, 128 + n % 64]

/-- The UTF-8 byte encoding of a string (`str.encode()` in the source). -/
def strBytes (s : String) : List Nat :=
  s.data.foldr (fun c acc => utf8Char c ++ acc) []

/-- Whether a character is a Windows path separator (`ntpath` accepts both the
backslash and the forward slash). -/
def isSep (c : Char) : Bool := c == '\\' || c == '/'

/-- `os.path.basename`: the suffix after the last path separator.  Modelled
for paths that contain a separator after any drive prefix, which holds for
every path this development evaluates. -/
def basenameL (l : List Char) : List Char :=
  ((l.reverse.takeWhile (fun c => !isSep c)).reverse)

/-- The drive of a Windows path in pathlib terms: a leading letter-colon pair,
else empty. -/
def driveOf (l : List Char) : List Char :=
  match l with
  | c1 :: c2 :: _ => if c1.isAlpha && c2 == ':' then [c1, c2] else []
  | _ => []

/-- Whether a path is drive-absolute: drive followed by a separator. -/
def isDriveAbs (l : List Char) : Bool :=
  match l with
  | c1 :: c2 :: c3 :: _ => c1.isAlpha && c2 == ':' && isSep c3
  | _ => false

/-- `Path(p).absolute()`: a drive-absolute path is returned unchanged,
otherwise the path is joined under the current working directory.  Modelled
for drive-absolute and plain relative inputs, the cases the source exercises
on Windows. -/
def pathAbsolute (cwd p : String) : String :=
  if isDriveAbs p.data then p else cwd ++ "\\" ++ p

/-- Python `s.replace(d1d2, "")` for a two-character pattern: remove every
non-overlapping occurrence, scanning left to right. -/
def removeOcc2 (d1 d2 : Char) : List Char → List Char
  | [] => []
  | [c] => [c]
  | c1 :: c2 :: rest =>
      if c1 == d1 && c2 == d2 then removeOcc2 d1 d2 rest
      else c1 :: removeOcc2 d1 d2 (c2 :: rest)

/-- `true` when the two-character pattern occurs nowhere in the list. -/
def noOcc2 (d1 d2 : Char) : List Char → Bool
  | [] => true
  | [_] => true
  | c1 :: c2 :: rest => !(c1 == d1 && c2 == d2) && noOcc2 d1 d2 (c2 :: rest)

/-- Python `s.replace("\\\\", "/")` character map. -/
def slashify : List Char → List Char :=
  List.map (fun c => if c == '\\' then '/' else c)

/-- Lower-case every character, as Python `str.lower` does on ASCII. -/
def lowerL (l : List Char) : List Char := l.map Char.toLower

/-- Whether the first list is an initial segment of the second. -/
def startsWithL : List Char → List Char → Bool
  | [], _ => true
  | _ :: _, [] => false
  | p :: ps, c :: cs => p == c && startsWithL ps cs

/-- Python substring membership `pat in s`. -/
def hasSubL (pat : List Char) : List Char → Bool
  | [] => pat.isEmpty
  | c :: rest => startsWithL pat (c :: rest) || hasSubL pat rest

/-! ### The `LENV` class: construction (`__init__`) -/

/-- The JSON config record written by `init` and read by `destroy`. -/
structure ConfigRecord where
  instance_name : String
  distro : String
  created_at : String
deriving DecidableEq

/-- One observable external effect of an `LENV` operation: a subprocess
invocation, a download, a filesystem mutation, or a printed message. -/
inductive Eff
  | httpDownload (url dest : String)
  | wslSetDefaultVersion2
  | mkdirP (path : String)
  | wslImport (name installPath tarPath : String)
  | shExec (inst cmd : String)
  | warn (cmd stderr : String)
  | writeConfig (path : String) (record : ConfigRecord)
  | wslRun (inst cwdPath cmd : String)
  | spawnShell (inst cwdPath : String)
  | wslTerminate (name : String)
  | sleepSecs (n : Nat)
  | wslUnregister (name : String)
  | rmtree (path : String)
  | message (s : String)
deriving DecidableEq

/-- The fields `LENV.__init__` computes.  The two `mkdir(exist_ok=True)`
calls on the home cache directories are construction-time effects that touch
no field and are not modelled. -/
structure LENV where
  project_path : String
  project_name : String
  instance_name : String
  config_dir : String
  config_file : String
  lenv_home : String
  rootfs_cache : String
deriving DecidableEq

/-- `LENV.__init__(project_path)`: `cwd` is `os.getcwd()`, `home` is
`Path.home()`, and `projectPathArg = none` models calling with the default
argument.  The instance name is the project basename plus the first eight hex
characters of the MD5 of the absolute project path. -/
def LENV.make (cwd home : String) (projectPathArg : Option String) : LENV :=
  let project_path := projectPathArg.getD cwd
  let project_name := String.mk (basenameL project_path.data)
  let path_hash :=
    String.mk ((md5hex (strBytes (pathAbsolute cwd project_path))).take 8)
  let config_dir := project_path ++ "\\.lenv"
  let lenv_home := home ++ "\\.lenv"
  { project_path := project_path
    project_name := project_name
    instance_name := "lenv-" ++ project_name ++ "-" ++ path_hash
    config_dir := config_dir
    config_file := config_dir ++ "\\config.json"
    lenv_home := lenv_home
    rootfs_cache := lenv_home ++ "\\rootfs" }

/-! ### Path translation (`_windows_to_wsl_path`) -/

/-- `LENV._windows_to_wsl_path`: absolutize, take `path.drive`, lower-case it
and strip the colon, and remove **every** occurrence of the drive substring
from the path (Python `str.replace` is global), then turn backslashes into
slashes.  With no drive, `replace` with an empty pattern and empty
replacement is the identity. -/
def windows_to_wsl_path (cwd windows_path : String) : String :=
  let pa := (pathAbsolute cwd windows_path).data
  match driveOf pa with
  | [d1, d2] =>
      "/mnt/" ++ String.mk [d1.toLower] ++
        String.mk (slashify (removeOcc2 d1 d2 pa))
  | _ => "/mnt/" ++ String.mk (slashify pa)

/-- Follows the claim text, not the source: the result is `/mnt/` followed by
the lower-cased drive letter (colon removed) followed by the remainder of the
absolute path (the part after the drive) with every backslash replaced by a
forward slash. -/
def claimedWslPath (p : String) : String :=
  match p.data with
  | d1 :: _ :: rest => "/mnt/" ++ String.mk [d1.toLower] ++ String.mk (slashify rest)
  | l => "/mnt/" ++ String.mk (slashify l)

/-! ### Rootfs download (`_download_rootfs`) -/

/-- One entry of the `rootfs_urls` table. -/
structure RootfsInfo where
  url : String
  filename : String
  size_mb : Nat
deriving DecidableEq

/-- The `rootfs_urls` dictionary; `none` models the `KeyError` branch that
raises `ValueError`. -/
def rootfs_urls (distro : String) : Option RootfsInfo :=
  if distro = "alpine" then
    some { url := "https://dl-cdn.alpinelinux.org/alpine/v3.19/releases/x86_64/alpine-minirootfs-3.19.0-x86_64.tar.gz"
           filename := "alpine-minirootfs-3.19.0-x86_64.tar.gz"
           size_mb := 3 }
  else if distro = "ubuntu" then
    some { url := "https://cloud-images.ubuntu.com/minimal/releases/jammy/release/ubuntu-22.04-minimal-cloudimg-amd64-root.tar.xz"
           filename := "ubuntu-22.04-minimal-cloudimg-amd64-root.tar.xz"
           size_mb := 50 }
  else none

/-- `LENV._download_rootfs(distro)`.  `fs` is the set of files that exist,
`dlOk` tells whether the HTTP retrieval would succeed (its failure calls
`sys.exit(1)`, modelled as an error result).  Returns the effect list and the
returned rootfs path. -/
def LENV.download_rootfs (env : LENV) (fs : List String) (dlOk : Bool)
    (distro : String := "alpine") : List Eff × Except String String :=
  match rootfs_urls distro with
  | none => ([], .error ("Unknown distro: " ++ distro))
  | some info =>
    let rootfs_path := env.rootfs_cache ++ "\\" ++ info.filename
    if fs.contains rootfs_path then
      ([Eff.message ("Using cached " ++ distro ++ " rootfs")], .ok rootfs_path)
    else if dlOk then
      ([Eff.httpDownload info.url rootfs_path], .ok rootfs_path)
    else
      ([Eff.httpDownload info.url rootfs_path], .error "Download failed")

/-! ### Provisioning (`_configure_instance`) -/

/-- The fixed alpine provisioning sequence. -/
def alpine_commands : List String :=
  ["apk update",
   "apk add python3 py3-pip gcc python3-dev musl-dev linux-headers",
   "ln -sf /usr/bin/python3 /usr/bin/python",
   "python -m pip install --upgrade pip"]

/-- The fixed ubuntu provisioning sequence. -/
def ubuntu_commands : List String :=
  ["apt-get update",
   "apt-get install -y python3 python3-pip python3-dev build-essential",
   "ln -sf /usr/bin/python3 /usr/bin/python",
   "python -m pip install --upgrade pip"]

/-- The command table selected by the `if distro ==` chain. -/
def configure_commands (distro : String) : Option (List String) :=
  if distro = "alpine" then some alpine_commands
  else if distro = "ubuntu" then some ubuntu_commands
  else none

/-- The provisioning loop body: run each command via `wsl -d <inst> -- sh -c`,
and print a warning when its exit code is non-zero; the loop never stops
early.  `rc` and `errOf` give each command's exit code and captured stderr. -/
def runCfgCmds (inst : String) (rc : String → Int) (errOf : String → String) :
    List String → List Eff
  | [] => []
  | cmd :: rest =>
      (Eff.shExec inst cmd ::
        (if rc cmd ≠ 0 then [Eff.warn cmd (errOf cmd)] else [])) ++
      runCfgCmds inst rc errOf rest

/-- `LENV._configure_instance(distro)` (default argument `"alpine"`). -/
def LENV.configure_instance (env : LENV) (rc : String → Int)
    (errOf : String → String) (distro : String := "alpine") : List Eff :=
  match configure_commands distro with
  | none =>
      [Eff.message ("Unknown distro: " ++ distro ++ ", skipping configuration")]
  | some cmds => runCfgCmds env.instance_name rc errOf cmds

/-! ### Instance creation (`_create_wsl_instance`) and `init` -/

/-- The outside world as `_create_wsl_instance` observes it: whether
`wsl --status` succeeds, whether it reports version 2, and the outcome of the
`wsl --import` subprocess. -/
structure WslWorld where
  wslInstalled : Bool
  wslVersion2 : Bool
  importRc : Int
  importStderr : String

/-- `LENV._create_wsl_instance(distro)` (default argument `"alpine"`).  When
WSL2 is absent the method branches into the interactive installer, which
always exits the process; that is modelled as an error result.  Note the
faithful slip: provisioning is invoked as `self._configure_instance()`, with
no distro argument. -/
def LENV.create_wsl_instance (env : LENV) (w : WslWorld) (fs : List String)
    (dlOk : Bool) (rc : String → Int) (errOf : String → String)
    (distro : String := "alpine") : List Eff × Except String Unit :=
  if !w.wslInstalled then ([], .error "WSL2 is not installed")
  else
    let verEffs := if !w.wslVersion2 then [Eff.wslSetDefaultVersion2] else []
    match env.download_rootfs fs dlOk distro with
    | (dlEffs, .error e) => (verEffs ++ dlEffs, .error e)
    | (dlEffs, .ok rootfs_tar) =>
      let install_path := env.lenv_home ++ "\\instances\\" ++ env.instance_name
      let impEffs :=
        [Eff.mkdirP install_path,
         Eff.wslImport env.instance_name install_path rootfs_tar]
      if w.importRc ≠ 0 ∧
          hasSubL "already exists".data (lowerL w.importStderr.data) = false then
        (verEffs ++ dlEffs ++ impEffs,
         .error ("Failed to create WSL instance: " ++ w.importStderr))
      else
        let cfgEffs := env.configure_instance rc errOf
        (verEffs ++ dlEffs ++ impEffs ++ cfgEffs, .ok ())

/-- `LENV.init(distro)`: make the project config directory, resolve the
distro (the interactive chooser is the oracle `choice`), create the instance
-- note the faithful slip: `self._create_wsl_instance()` is called with no
argument, so the default `"alpine"` is used regardless of `distro` -- and
write the config record whose `distro` field is the *requested* distro and
whose timestamp is `now`. -/
def LENV.init (env : LENV) (w : WslWorld) (fs : List String) (dlOk : Bool)
    (rc : String → Int) (errOf : String → String) (now : String)
    (choice : String) (distro : Option String) :
    List Eff × Except String ConfigRecord :=
  let d := distro.getD choice
  match env.create_wsl_instance w fs dlOk rc errOf with
  | (effs, .error e) => (Eff.mkdirP env.config_dir :: effs, .error e)
  | (effs, .ok _) =>
    let record : ConfigRecord :=
      { instance_name := env.instance_name, distro := d, created_at := now }
    (Eff.mkdirP env.config_dir ::
       effs ++ [Eff.writeConfig env.config_file record], .ok record)

/-! ### `activate`, `run`, `destroy` and the CLI -/

/-- What the config file and config directory currently hold. -/
structure ConfigData where
  instance_name : Option String
  distro : Option String
deriving DecidableEq

/-- Filesystem state consulted by `activate` and `destroy`. -/
structure ConfigWorld where
  configFileExists : Bool
  config : ConfigData
  configDirExists : Bool
deriving DecidableEq

/-- `LENV.activate()`: refuse when the config file is absent; otherwise spawn
an interactive shell in the instance at the translated project path. -/
def LENV.activate (env : LENV) (w : ConfigWorld) (cwd : String) : List Eff :=
  if !w.configFileExists then
    [Eff.message "No LENV environment found. Run lenv init first."]
  else
    let wsl_path := windows_to_wsl_path cwd env.project_path
    [Eff.message ("Entering Linux environment " ++ env.instance_name),
     Eff.message "Type exit to return to Windows",
     Eff.spawnShell env.instance_name wsl_path,
     Eff.message "Exited Linux environment"]

/-- `LENV.run(command)`: no config check at all -- the `wsl` subprocess is
always invoked; prints captured stdout, prints stderr when non-empty, and
returns the subprocess exit code `rcv`. -/
def LENV.run (env : LENV) (cwd : String) (rcv : Int) (out err : String)
    (command : String) : List Eff × Int :=
  let wsl_path := windows_to_wsl_path cwd env.project_path
  (Eff.wslRun env.instance_name wsl_path command :: Eff.message out ::
     (if err ≠ "" then [Eff.message err] else []), rcv)

/-- `LENV.destroy()`: with no config file only a message is printed.
Otherwise the instance named in the config (with the computed name as
`config.get` fallback) is terminated, a fixed two-second sleep follows, and
then -- the faithful slip -- `wsl --unregister` is passed
`self.instance_name`, the freshly computed name, not the recorded one.
Finally the config directory is removed when it exists. -/
def LENV.destroy (env : LENV) (w : ConfigWorld) : List Eff :=
  if !w.configFileExists then [Eff.message "No LENV enviroment found"]
  else
    let instance_name := w.config.instance_name.getD env.instance_name
    [Eff.wslTerminate instance_name, Eff.sleepSecs 2,
     Eff.wslUnregister env.instance_name] ++
    (if w.configDirExists then [Eff.rmtree env.config_dir] else []) ++
    [Eff.message ("Destroyed environment: " ++ env.instance_name)]

/-- The `run` branch of `cli.main` on the no-exception path: the arguments
are joined with spaces, `env.run` is invoked, and its return value is
discarded; `main` then returns normally, so the process exit status is 0. -/
def cliMainRun (env : LENV) (cwd : String) (rcv : Int) (out err : String)
    (cmdArgs : List String) : List Eff × Int :=
  let command := String.intercalate " " cmdArgs
  let r := env.run cwd rcv out err command
  (r.1, 0)

/-! ### Effect classifiers -/

/-- The provisioning commands executed in a trace, in order. -/
def execCmds : List Eff → List String
  | [] => []
  | Eff.shExec _ cmd :: rest => cmd :: execCmds rest
  | _ :: rest => execCmds rest

/-- The provisioning commands warned about in a trace, in order. -/
def warnCmds : List Eff → List String
  | [] => []
  | Eff.warn cmd _ :: rest => cmd :: warnCmds rest
  | _ :: rest => warnCmds rest

/-- Effects that destroy state or tear down an instance. -/
def destructive : Eff → Bool
  | Eff.wslTerminate _ => true
  | Eff.wslUnregister _ => true
  | Eff.rmtree _ => true
  | _ => false

/-- Whether an effect is an HTTP download. -/
def isDownload : Eff → Bool
  | Eff.httpDownload _ _ => true
  | _ => false

/-- Whether an effect spawns the interactive shell. -/
def isSpawn : Eff → Bool
  | Eff.spawnShell _ _ => true
  | _ => false

/-- A concrete run of `init(distro="ubuntu")`: project at `C:\work\app`,
home `C:\Users\u`, WSL2 present and version 2, empty rootfs cache, download
succeeding, every provisioning command succeeding, and a fixed clock. -/
def initUbuntuResult : List Eff × Except String ConfigRecord :=
  (LENV.make "C:\\w" "C:\\Users\\u" (some "C:\\work\\app")).init
    ⟨true, true, 0, ""⟩ [] true (fun _ => 0) (fun _ => "")
    "2026-01-01T00:00:00" "alpine" (some "ubuntu")

/-! ## Helper lemmas -/

/-- An MD5 digest is sixteen bytes. -/
lemma md5_length (m : List Nat) : (md5 m).length = 16 := by
  simp [md5, leBytes4]

/-- Hex rendering doubles the length. -/
lemma bytesToHex_length (l : List Nat) :
    (bytesToHex l).length = 2 * l.length := by
  induction l with
  | nil => rfl
  | cons b r ih => simp [bytesToHex, ih]; omega

/-- A full MD5 hexdigest is 32 characters. -/
lemma md5hex_length (m : List Nat) : (md5hex m).length = 32 := by
  rw [md5hex, bytesToHex_length, md5_length]

/-- The truncated hash the instance name embeds is exactly 8 characters. -/
lemma md5hex_take8_length (m : List Nat) :
    ((md5hex m).take 8).length = 8 := by
  simp [List.length_take, md5hex_length]

/-- Removing a two-character pattern that never occurs is the identity. -/
lemma removeOcc2_of_noOcc2 (d1 d2 : Char) (l : List Char)
    (h : noOcc2 d1 d2 l = true) : removeOcc2 d1 d2 l = l := by
  induction l with
  | nil => rfl
  | cons c t ih =>
    cases t with
    | nil => rfl
    | cons c2 r =>
      simp only [noOcc2, Bool.and_eq_true, Bool.not_eq_true'] at h
      simp only [removeOcc2, h.1, Bool.false_eq_true, if_false]
      exact congrArg (c :: ·) (ih h.2)

/-- Every command in the list is executed, in order, whatever the exit
codes. -/
lemma execCmds_runCfgCmds (inst : String) (rc : String → Int)
    (errOf : String → String) (cmds : List String) :
    execCmds (runCfgCmds inst rc errOf cmds) = cmds := by
  induction cmds with
  | nil => rfl
  | cons c rest ih =>
    by_cases h : rc c ≠ 0 <;> simp [runCfgCmds, execCmds, h, ih]

/-- A warning is printed exactly for the commands whose exit code is
non-zero. -/
lemma warnCmds_runCfgCmds (inst : String) (rc : String → Int)
    (errOf : String → String) (cmds : List String) :
    warnCmds (runCfgCmds inst rc errOf cmds) =
      cmds.filter (fun c => decide (rc c ≠ 0)) := by
  induction cmds with
  | nil => rfl
  | cons c rest ih =>
    by_cases h : rc c ≠ 0 <;>
      simp [runCfgCmds, warnCmds, List.filter, h, ih]

/-- The instance name of a drive-absolute project path, in list form. -/
lemma make_instance_name (cwd home p : String)
    (h : isDriveAbs p.data = true) :
    (LENV.make cwd home (some p)).instance_name =
      String.mk ("lenv-".data ++
        (basenameL p.data ++ ('-' :: (md5hex (strBytes p)).take 8))) := by
  rw [String.ext_iff]
  simp [LENV.make, pathAbsolute, h, String.data_append]

/-- Names of the shape `lenv-<b>-<t>` with equal-length tails agree exactly
when both components agree. -/
lemma lenvTag_eq_iff (b1 b2 t1 t2 : List Char) (hl : t1.length = t2.length) :
    ("lenv-".data ++ (b1 ++ ('-' :: t1)) = "lenv-".data ++ (b2 ++ ('-' :: t2)))
    ↔ (b1 = b2 ∧ t1 = t2) := by
  constructor
  · intro he
    have he2 := List.append_cancel_left he
    have hlen : ('-' :: t1).length = ('-' :: t2).length := by simp [hl]
    obtain ⟨hb, ht⟩ := List.append_inj' he2 hlen
    exact ⟨hb, List.cons_injective.eq_iff.mp ht⟩
  · rintro ⟨hb, ht⟩
    rw [hb, ht]

/-! ## Claims -/

/-- C5: during provisioning, every command of the fixed sequence is executed
even when earlier ones fail; a failed command only adds a warning and never
aborts the sequence. -/
theorem configure_instance_best_effort (env : LENV) (rc : String → Int)
    (errOf : String → String) (d : String) (cmds : List String)
    (hc : configure_commands d = some cmds) :
    execCmds (env.configure_instance rc errOf d) = cmds ∧
    warnCmds (env.configure_instance rc errOf d) =
      cmds.filter (fun c => decide (rc c ≠ 0)) := by
  unfold LENV.configure_instance
  rw [hc]
  exact ⟨execCmds_runCfgCmds env.instance_name rc errOf cmds,
         warnCmds_runCfgCmds env.instance_name rc errOf cmds⟩

/-- Witness for C5: with every provisioning command failing, all four alpine
commands are still executed and all four are warned about. -/
theorem configure_instance_best_effort_witness :
    execCmds ((LENV.make "C:\\w" "C:\\h" none).configure_instance
        (fun _ => 1) (fun _ => "boom") "alpine") = alpine_commands ∧
    warnCmds ((LENV.make "C:\\w" "C:\\h" none).configure_instance
        (fun _ => 1) (fun _ => "boom") "alpine") =
      alpine_commands.filter (fun _c => decide ((1 : Int) ≠ 0)) :=
  configure_instance_best_effort (LENV.make "C:\\w" "C:\\h" none)
    (fun _ => 1) (fun _ => "boom") "alpine" alpine_commands rfl

/-- C6: destroying with no config file only prints a message: the trace is
exactly that message and contains no terminate, unregister or deletion. -/
theorem destroy_without_config_is_noop (env : LENV) (w : ConfigWorld)
    (h : w.configFileExists = false) :
    env.destroy w = [Eff.message "No LENV enviroment found"] ∧
    (env.destroy w).all (fun e => !destructive e) = true := by
  constructor <;> simp [LENV.destroy, h, destructive]

/-- Witness for C6 at a concrete project with no config file. -/
theorem destroy_without_config_is_noop_witness :
    (LENV.make "C:\\w" "C:\\h" (some "C:\\work\\app")).destroy
        ⟨false, ⟨none, none⟩, false⟩ =
      [Eff.message "No LENV enviroment found"] ∧
    ((LENV.make "C:\\w" "C:\\h" (some "C:\\work\\app")).destroy
        ⟨false, ⟨none, none⟩, false⟩).all (fun e => !destructive e) = true :=
  destroy_without_config_is_noop (LENV.make "C:\\w" "C:\\h" (some "C:\\work\\app"))
    ⟨false, ⟨none, none⟩, false⟩ rfl

/-- C7: for an absolute project path the instance name is a pure function of
that path alone: any two constructions, whatever the working directory or
home directory, compute the same name, and that name is the stated function
of the path and its basename. -/
theorem instance_name_deterministic (cwd1 cwd2 home1 home2 p : String)
    (h : isDriveAbs p.data = true) :
    (LENV.make cwd1 home1 (some p)).instance_name =
      (LENV.make cwd2 home2 (some p)).instance_name ∧
    (LENV.make cwd1 home1 (some p)).instance_name =
      "lenv-" ++ String.mk (basenameL p.data) ++ "-" ++
        String.mk ((md5hex (strBytes p)).take 8) := by
  constructor <;> simp [LENV.make, pathAbsolute, h]

/-- Witness for C7 at a concrete absolute path. -/
theorem instance_name_deterministic_witness :
    (LENV.make "C:\\cwd1" "C:\\home1" (some "C:\\work\\app")).instance_name =
      (LENV.make "C:\\cwd2" "C:\\home2" (some "C:\\work\\app")).instance_name ∧
    (LENV.make "C:\\cwd1" "C:\\home1" (some "C:\\work\\app")).instance_name =
      "lenv-" ++ String.mk (basenameL "C:\\work\\app".data) ++ "-" ++
        String.mk ((md5hex (strBytes "C:\\work\\app")).take 8) :=
  instance_name_deterministic "C:\\cwd1" "C:\\cwd2" "C:\\home1" "C:\\home2"
    "C:\\work\\app" (by decide)

/-- C9: `run` performs no precondition check -- for every command and every
world its very first effect is the `wsl` invocation -- whereas `activate`
with no config file prints a message and spawns no shell. -/
theorem run_unchecked_activate_checked (env : LENV) (cwd : String) (rcv : Int)
    (out err command : String) (w : ConfigWorld) :
    (env.run cwd rcv out err command).1.head? =
      some (Eff.wslRun env.instance_name
        (windows_to_wsl_path cwd env.project_path) command) ∧
    (w.configFileExists = false →
      env.activate w cwd =
        [Eff.message "No LENV environment found. Run lenv init first."] ∧
      (env.activate w cwd).all (fun e => !isSpawn e) = true) := by
  refine ⟨rfl, fun h => ?_⟩
  constructor <;> simp [LENV.activate, h, isSpawn]

/-- Witness for C9 at a concrete project with no config file. -/
theorem run_unchecked_activate_checked_witness :
    ((LENV.make "C:\\w" "C:\\h" (some "C:\\work\\app")).run "C:\\w" 7 "o" "e"
        "python app.py").1.head? =
      some (Eff.wslRun (LENV.make "C:\\w" "C:\\h" (some "C:\\work\\app")).instance_name
        (windows_to_wsl_path "C:\\w"
          (LENV.make "C:\\w" "C:\\h" (some "C:\\work\\app")).project_path)
        "python app.py") ∧
    ((LENV.make "C:\\w" "C:\\h" (some "C:\\work\\app")).activate
        ⟨false, ⟨none, none⟩, false⟩ "C:\\w" =
      [Eff.message "No LENV environment found. Run lenv init first."] ∧
    ((LENV.make "C:\\w" "C:\\h" (some "C:\\work\\app")).activate
        ⟨false, ⟨none, none⟩, false⟩ "C:\\w").all (fun e => !isSpawn e) = true) :=
  ⟨(run_unchecked_activate_checked (LENV.make "C:\\w" "C:\\h" (some "C:\\work\\app"))
      "C:\\w" 7 "o" "e" "python app.py" ⟨false, ⟨none, none⟩, false⟩).1,
   (run_unchecked_activate_checked (LENV.make "C:\\w" "C:\\h" (some "C:\\work\\app"))
      "C:\\w" 7 "o" "e" "python app.py" ⟨false, ⟨none, none⟩, false⟩).2 rfl⟩

/-- C10: the CLI `run` branch discards the inner exit code: on the
no-exception path the process exit status is 0 for every inner exit code,
even though `LENV.run` itself returns that inner code. -/
theorem cli_run_exit_zero (env : LENV) (cwd : String) (rcv : Int)
    (out err : String) (cmdArgs : List String) :
    (cliMainRun env cwd rcv out err cmdArgs).2 = 0 ∧
    (env.run cwd rcv out err (String.intercalate " " cmdArgs)).2 = rcv :=
  ⟨rfl, rfl⟩

set_option maxRecDepth 20000 in
/-- C1: evaluation of the code at the failing input `init(distro="ubuntu")`.
Because `init` invokes `self._create_wsl_instance()` with no argument, the
run downloads the **alpine** archive (and only it), provisions with the
**alpine** `apk` command sequence -- which differs from the ubuntu one --
yet records `distro = "ubuntu"` in the config file. -/
theorem init_ubuntu_imports_alpine :
    initUbuntuResult.1.filter isDownload =
      [Eff.httpDownload
        "https://dl-cdn.alpinelinux.org/alpine/v3.19/releases/x86_64/alpine-minirootfs-3.19.0-x86_64.tar.gz"
        "C:\\Users\\u\\.lenv\\rootfs\\alpine-minirootfs-3.19.0-x86_64.tar.gz"] ∧
    execCmds initUbuntuResult.1 = alpine_commands ∧
    alpine_commands ≠ ubuntu_commands ∧
    initUbuntuResult.2.toOption =
      some ⟨"lenv-app-8cbd8a21", "ubuntu", "2026-01-01T00:00:00"⟩ := by
  decide

set_option maxRecDepth 20000 in
/-- C2: evaluation of `destroy` at a failing input -- a config file recording
`lenv-app-00000000` while the computed name is `lenv-app-8cbd8a21`.  The
terminate call targets the recorded name, the sleep separates the calls and
the config directory is removed, but the unregister call targets the
computed name, not the recorded one. -/
theorem destroy_terminate_unregister_mismatch :
    (LENV.make "C:\\w" "C:\\Users\\u" (some "C:\\work\\app")).destroy
        ⟨true, ⟨some "lenv-app-00000000", some "alpine"⟩, true⟩ =
      [Eff.wslTerminate "lenv-app-00000000", Eff.sleepSecs 2,
       Eff.wslUnregister "lenv-app-8cbd8a21",
       Eff.rmtree "C:\\work\\app\\.lenv",
       Eff.message "Destroyed environment: lenv-app-8cbd8a21"] ∧
    ("lenv-app-00000000" : String) ≠ "lenv-app-8cbd8a21" := by
  decide

set_option maxRecDepth 20000 in
/-- C3 counterexample: two distinct absolute project paths with the same
directory basename whose 8-character MD5 prefixes collide, so the computed
instance names coincide -- the claimed injectivity is false. -/
theorem instance_name_collision :
    (LENV.make "C:\\w" "C:\\h" (some "C:\\projects\\u26052\\app")).instance_name =
      (LENV.make "C:\\w" "C:\\h" (some "C:\\projects\\u64528\\app")).instance_name ∧
    ("C:\\projects\\u26052\\app" : String) ≠ "C:\\projects\\u64528\\app" ∧
    (LENV.make "C:\\w" "C:\\h" (some "C:\\projects\\u26052\\app")).project_name =
      (LENV.make "C:\\w" "C:\\h" (some "C:\\projects\\u64528\\app")).project_name := by
  decide

/-- C3 amended: two absolute project paths receive the same instance name
exactly when they agree both on directory basename and on the first eight
hex characters of the MD5 of the path; distinctness of paths alone does not
separate names. -/
theorem instance_name_eq_iff (cwd1 cwd2 home1 home2 p1 p2 : String)
    (h1 : isDriveAbs p1.data = true) (h2 : isDriveAbs p2.data = true) :
    ((LENV.make cwd1 home1 (some p1)).instance_name =
      (LENV.make cwd2 home2 (some p2)).instance_name) ↔
    (basenameL p1.data = basenameL p2.data ∧
      (md5hex (strBytes p1)).take 8 = (md5hex (strBytes p2)).take 8) := by
  rw [make_instance_name cwd1 home1 p1 h1, make_instance_name cwd2 home2 p2 h2,
    String.ext_iff]
  exact lenvTag_eq_iff _ _ _ _
    (by rw [md5hex_take8_length, md5hex_take8_length])

/-- Witness for the amended C3 at two concrete paths with different
basenames: the names differ. -/
theorem instance_name_eq_iff_witness :
    ((LENV.make "C:\\w" "C:\\h" (some "C:\\work\\appA")).instance_name =
      (LENV.make "C:\\w" "C:\\h" (some "C:\\work\\appB")).instance_name) ↔
    (basenameL "C:\\work\\appA".data = basenameL "C:\\work\\appB".data ∧
      (md5hex (strBytes "C:\\work\\appA")).take 8 =
        (md5hex (strBytes "C:\\work\\appB")).take 8) :=
  instance_name_eq_iff "C:\\w" "C:\\w" "C:\\h" "C:\\h"
    "C:\\work\\appA" "C:\\work\\appB" (by decide) (by decide)

/-- C4: when the archive of a known distro is already in the user-home
cache, `_download_rootfs` performs no HTTP download -- the whole trace is the
cache-hit message -- and returns the cached path; and the result is
identical across different working directories and project paths sharing the
home, so the cache is reused across projects and repeated calls. -/
theorem download_rootfs_cached_no_download (cwd1 cwd2 home : String)
    (pp1 pp2 : Option String) (fs : List String) (dlOk : Bool)
    (d : String) (info : RootfsInfo) (hd : rootfs_urls d = some info)
    (hcached : ((LENV.make cwd1 home pp1).rootfs_cache ++ "\\" ++ info.filename)
        ∈ fs) :
    (LENV.make cwd1 home pp1).download_rootfs fs dlOk d =
      ([Eff.message ("Using cached " ++ d ++ " rootfs")],
        .ok ((LENV.make cwd1 home pp1).rootfs_cache ++ "\\" ++ info.filename)) ∧
    ((LENV.make cwd1 home pp1).download_rootfs fs dlOk d).1.all
      (fun e => !isDownload e) = true ∧
    (LENV.make cwd1 home pp1).download_rootfs fs dlOk d =
      (LENV.make cwd2 home pp2).download_rootfs fs dlOk d := by
  have hmain : (LENV.make cwd1 home pp1).download_rootfs fs dlOk d =
      ([Eff.message ("Using cached " ++ d ++ " rootfs")],
        .ok ((LENV.make cwd1 home pp1).rootfs_cache ++ "\\" ++ info.filename)) := by
    simp [LENV.download_rootfs, hd, hcached]
  exact ⟨hmain, by rw [hmain]; rfl, rfl⟩

/-- Witness for C4: the alpine archive sits in the cache of `C:\Users\u`,
and the cached path is returned with no download for two different
projects. -/
theorem download_rootfs_cached_no_download_witness :
    (LENV.make "C:\\w1" "C:\\Users\\u" (some "C:\\work\\app1")).download_rootfs
        ["C:\\Users\\u\\.lenv\\rootfs\\alpine-minirootfs-3.19.0-x86_64.tar.gz"]
        true "alpine" =
      ([Eff.message ("Using cached " ++ "alpine" ++ " rootfs")],
        .ok ((LENV.make "C:\\w1" "C:\\Users\\u" (some "C:\\work\\app1")).rootfs_cache
          ++ "\\" ++ "alpine-minirootfs-3.19.0-x86_64.tar.gz")) ∧
    ((LENV.make "C:\\w1" "C:\\Users\\u" (some "C:\\work\\app1")).download_rootfs
        ["C:\\Users\\u\\.lenv\\rootfs\\alpine-minirootfs-3.19.0-x86_64.tar.gz"]
        true "alpine").1.all (fun e => !isDownload e) = true ∧
    (LENV.make "C:\\w1" "C:\\Users\\u" (some "C:\\work\\app1")).download_rootfs
        ["C:\\Users\\u\\.lenv\\rootfs\\alpine-minirootfs-3.19.0-x86_64.tar.gz"]
        true "alpine" =
      (LENV.make "C:\\w2" "C:\\Users\\u" (some "C:\\other\\app2")).download_rootfs
        ["C:\\Users\\u\\.lenv\\rootfs\\alpine-minirootfs-3.19.0-x86_64.tar.gz"]
        true "alpine" :=
  download_rootfs_cached_no_download "C:\\w1" "C:\\w2" "C:\\Users\\u"
    (some "C:\\work\\app1") (some "C:\\other\\app2")
    ["C:\\Users\\u\\.lenv\\rootfs\\alpine-minirootfs-3.19.0-x86_64.tar.gz"]
    true "alpine" _ rfl (by decide)

/-- C8 counterexample: a path in which the drive substring reappears later.
Python `str.replace` removes **every** occurrence of the drive, so the code
yields `/mnt/c/a/b` while the claimed rule (drop only the leading drive)
yields `/mnt/c/aC:/b`. -/
theorem wsl_path_global_replace_cex :
    windows_to_wsl_path "C:\\w" "C:\\aC:\\b" = "/mnt/c/a/b" ∧
    claimedWslPath "C:\\aC:\\b" = "/mnt/c/aC:/b" ∧
    ("/mnt/c/a/b" : String) ≠ "/mnt/c/aC:/b" := by
  decide

/-- C8 amended: for every drive-absolute path in which the drive substring
occurs nowhere after its leading position, the translation equals the
claimed rule -- slash after `/mnt/`, lower-cased drive letter without colon,
remainder with backslashes turned into slashes -- and, being a function of
the path alone (the working directory is universally quantified and absent
from the result), it has no other dependency. -/
theorem wsl_path_drive_once (cwd p : String) (d1 s : Char)
    (rest : List Char) (hp : p.data = d1 :: ':' :: s :: rest)
    (hAlpha : d1.isAlpha = true) (hSep : isSep s = true)
    (hOnce : noOcc2 d1 ':' (s :: rest) = true) :
    windows_to_wsl_path cwd p = claimedWslPath p := by
  have habs : isDriveAbs p.data = true := by
    rw [hp]; simp [isDriveAbs, hAlpha, hSep]
  have hpa : pathAbsolute cwd p = p := by simp [pathAbsolute, habs]
  have hrm : removeOcc2 d1 ':' (d1 :: ':' :: s :: rest) = s :: rest := by
    simp only [removeOcc2, beq_self_eq_true, Bool.and_self, if_true]
    exact removeOcc2_of_noOcc2 _ _ _ hOnce
  unfold windows_to_wsl_path claimedWslPath
  rw [hpa, hp]
  simp [driveOf, hAlpha, hrm]

/-- Witness for the amended C8 at a concrete ordinary project path. -/
theorem wsl_path_drive_once_witness :
    windows_to_wsl_path "C:\\w" "C:\\work\\app" = claimedWslPath "C:\\work\\app" :=
  wsl_path_drive_once "C:\\w" "C:\\work\\app" 'C' '\\' "work\\app".data
    (by decide) (by decide) (by decide) (by decide)

end Lenv
